import Mathlib

/-!
# Verification of the blog content pipeline of `nickcosmo/personal-site-v2`

Shallow embedding of the content ingestion and static-page-generation
pipeline of the repository:

* `src/content.config.ts` — the `blog` collection's zod schema (the
  Content Schema Validator);
* `src/pages/blog/[id].astro` — `getStaticPaths` (the Static Path
  Generator) and the per-post page that forwards its props to
  `BlogPostLayout`;
* `BlogPostLayout.astro` — the head/meta-tag rendering (the Page
  Renderer);
* `src/pages/blog/index.astro` — the filtered, date-sorted listing
  (the Index Renderer).

JavaScript `Date` values are represented by their numeric timestamp
(`Date.prototype.valueOf`), an `Int`; optional / possibly-`undefined`
values are `Option`s; fallible validation returns `Except`.
-/

namespace PersonalSite

/-! ## Data model

A loaded content-collection entry.  `id` is the slug Astro derives from
the file's relative path (nested files keep their directory segments,
e.g. `"dir/post"`).  `data` is the front matter after schema validation,
`body` the markdown body. -/

/-- Validated front matter, the output type of the zod schema in
`src/content.config.ts`:
`title: z.string(), published: z.date().optional(), description: z.string(),
author: z.string(), tags: z.array(z.string()), ogImage: z.string().optional()`.
A `published` date is its `valueOf()` timestamp. -/
structure PostData where
  title : String
  description : String
  author : String
  tags : List String
  published : Option Int
  ogImage : Option String
deriving Repr, DecidableEq

/-- One entry of the `blog` collection as produced by the glob loader. -/
structure PostEntry where
  id : String
  data : PostData
  body : String
deriving Repr, DecidableEq

/-- The rendered-content handle: `const { Content } = await render(post)`
converts the body to a renderable component.  We record the source it was
rendered from. -/
structure ContentHandle where
  source : String
deriving Repr, DecidableEq

/-- `render(post)` from `astro:content`, specialised to what the pipeline
observes: the `Content` component rendered from the entry's body. -/
def render (post : PostEntry) : ContentHandle :=
  { source := post.body }

/-! ## Content Schema Validator (`src/content.config.ts`)

The zod schema receives the YAML-parsed front matter: a record whose
fields hold arbitrary parsed values (or are absent).  `RawValue` covers
the value shapes the schema distinguishes: strings, dates (YAML parses
`published: 2024-04-04` to a date before zod sees it) and arrays. -/

/-- A YAML-parsed front-matter value. -/
inductive RawValue where
  | str (s : String)
  | date (d : Int)
  | arr (xs : List RawValue)
deriving Repr

/-- A raw front-matter record: each schema field is present with some
parsed value, or absent. -/
structure RawRecord where
  title : Option RawValue
  description : Option RawValue
  author : Option RawValue
  tags : Option RawValue
  published : Option RawValue
  ogImage : Option RawValue
deriving Repr

/-- A zod parse failure (`ZodError`): the list of offending fields. -/
structure SchemaViolation where
  fields : List String
deriving Repr, DecidableEq

/-- `z.string()`: present and a string. -/
def asString : Option RawValue → Option String
  | some (.str s) => some s
  | _ => none

/-- `z.date().optional()`: absent, or present and a date. -/
def asOptionalDate : Option RawValue → Option (Option Int)
  | none => some none
  | some (.date d) => some (some d)
  | some _ => none

/-- `z.string().optional()`: absent, or present and a string. -/
def asOptionalString : Option RawValue → Option (Option String)
  | none => some none
  | some (.str s) => some (some s)
  | some _ => none

/-- `z.array(z.string())`: present, an array, every element a string. -/
def asStringArray : Option RawValue → Option (List String)
  | some (.arr xs) => xs.mapM fun v => match v with | .str s => some s | _ => none
  | _ => none

/-- The fields of the record that fail their check, in schema declaration
order (zod collects every issue). -/
def fieldErrors (r : RawRecord) : List String :=
  (if (asString r.title).isSome then [] else ["title"]) ++
  (if (asOptionalDate r.published).isSome then [] else ["published"]) ++
  (if (asString r.description).isSome then [] else ["description"]) ++
  (if (asString r.author).isSome then [] else ["author"]) ++
  (if (asStringArray r.tags).isSome then [] else ["tags"]) ++
  (if (asOptionalString r.ogImage).isSome then [] else ["ogImage"])

/-- The `blog` collection's schema applied to a raw front-matter record:
accepts exactly when every field check passes, otherwise fails with a
`SchemaViolation` naming the offending fields. -/
def blogSchema (r : RawRecord) : Except SchemaViolation PostData :=
  match asString r.title, asOptionalDate r.published, asString r.description,
        asString r.author, asStringArray r.tags, asOptionalString r.ogImage with
  | some t, some p, some d, some a, some tg, some og =>
      .ok { title := t, description := d, author := a, tags := tg,
            published := p, ogImage := og }
  | _, _, _, _, _, _ => .error { fields := fieldErrors r }

/-! ## Identifier derivation

Both routed pages use `post.id.split("/").pop() || ""`.  JavaScript
`split` with the one-character separator `"/"` cuts the string at every
`/` and never returns an empty array (`"".split("/")` is `[""]`); `pop`
takes the last element; `|| ""` maps a falsy result (the empty string)
to `""`. -/

/-- `String.split` of JavaScript with separator `"/"`, on the character
list: cut at each `/`, keeping empty pieces. -/
def splitSlashAux : List Char → List Char → List (List Char)
  | [], acc => [acc.reverse]
  | c :: cs, acc =>
      if c = '/' then acc.reverse :: splitSlashAux cs []
      else splitSlashAux cs (c :: acc)

/-- `s.split("/")` of JavaScript. -/
def splitSlash (s : String) : List String :=
  (splitSlashAux s.data []).map fun l => ⟨l⟩

/-- `post.id.split("/").pop() || ""`: the final path segment of the id. -/
def lastSegment (s : String) : String :=
  (splitSlash s).getLastD ""

/-! ## Static Path Generator (`src/pages/blog/[id].astro`) -/

/-- The `params` of a page-generation unit: the routed `[id]`. -/
structure PathParams where
  id : String
deriving Repr, DecidableEq

/-- The `props` object built by `getStaticPaths`.  The page's `Props`
interface declares `author`, `description` and `tags` as required, but
the object literal in `getStaticPaths` sets only `id`, `title`,
`published`, `ogImage` and `Content`; reading the other declared fields
from `Astro.props` therefore yields `undefined`, which we model as
`Option` fields that the generator leaves at `none`. -/
structure PathProps where
  id : String
  title : String
  author : Option String
  description : Option String
  tags : Option (List String)
  published : Option Int
  ogImage : Option String
  Content : ContentHandle
deriving Repr, DecidableEq

/-- One page-generation unit returned by `getStaticPaths`. -/
structure PathUnit where
  params : PathParams
  props : PathProps
deriving Repr, DecidableEq

/-- The body of the `allPosts.map` callback in `getStaticPaths`:
`{ params: { id: post.id.split("/").pop() || "" },
   props: { id: post.id, title: post.data.title,
            published: post.data.published, ogImage: post.data.ogImage,
            Content } }`. -/
def mkPathUnit (post : PostEntry) : PathUnit :=
  { params := { id := lastSegment post.id }
    props := { id := post.id
               title := post.data.title
               author := none
               description := none
               tags := none
               published := post.data.published
               ogImage := post.data.ogImage
               Content := render post } }

/-- `!!post.data.published`: `published` is a `Date` or `undefined`, and
a `Date` object is always truthy, so the filter keeps exactly the
entries whose `published` is present. -/
def isPublished (post : PostEntry) : Bool :=
  post.data.published.isSome

/-- `getStaticPaths`: filter the collection to published entries and map
each to its page-generation unit.  The `Promise.all` in the source joins
the per-entry `render` calls; the result set is the same as the
sequential map. -/
def getStaticPaths (blog : List PostEntry) : List PathUnit :=
  (blog.filter isPublished).map mkPathUnit

/-! ## Page Renderer (`BlogPostLayout.astro`)

The per-post page forwards `title id published ogImage author description
tags` from `Astro.props` to `BlogPostLayout`.  The layout destructures
only `{ id, title, description, published, ogImage }` and emits the head
metadata below; the `author` meta tag is the literal
`<meta name="author" content="Nick Cosmo" />`. -/

/-- The props `BlogPostLayout` receives (its `Props` interface).
`author`/`description`/`tags` are `Option`s because the blog page reads
them from props `getStaticPaths` never set. -/
structure LayoutProps where
  id : String
  title : String
  author : Option String
  description : Option String
  tags : Option (List String)
  published : Option Int
  ogImage : Option String
deriving Repr, DecidableEq

/-- JavaScript `a || b` on an optional string: the fallback is taken when
the value is `undefined` or the (falsy) empty string. -/
def jsOrString (v : Option String) (fallback : String) : String :=
  match v with
  | some s => if s = "" then fallback else s
  | none => fallback

/-- The metadata tags of the document head emitted by
`BlogPostLayout.astro`.  `ogDescription` is `none` when the bound
`description` is `undefined` (Astro then renders no content value). -/
structure RenderedHead where
  metaAuthor : String
  titleTag : String
  ogTitle : String
  ogType : String
  ogUrl : String
  ogDescription : Option String
  ogImage : String
deriving Repr, DecidableEq

/-- The head of the document `BlogPostLayout.astro` renders:
`<meta name="author" content="Nick Cosmo" />`, `<title>{title}</title>`,
`og:title`, `og:type "website"`,
`og:url https://www.nickcosmo.com/blog/${id}`, `og:description
{description}`, and `og:image
https://www.nickcosmo.com/${ogImage || "og-image.png"}`. -/
def blogPostLayout (p : LayoutProps) : RenderedHead :=
  { metaAuthor := "Nick Cosmo"
    titleTag := p.title
    ogTitle := p.title
    ogType := "website"
    ogUrl := "https://www.nickcosmo.com/blog/" ++ p.id
    ogDescription := p.description
    ogImage := "https://www.nickcosmo.com/" ++ jsOrString p.ogImage "og-image.png" }

/-- The per-post page (`[id].astro` below the frontmatter): destructure
`Astro.props` — the `props` of a page-generation unit — and pass the
fields to `BlogPostLayout`. -/
def renderUnit (u : PathUnit) : RenderedHead :=
  blogPostLayout
    { id := u.props.id
      title := u.props.title
      author := u.props.author
      description := u.props.description
      tags := u.props.tags
      published := u.props.published
      ogImage := u.props.ogImage }

/-- End-to-end per-entry rendering: the document produced for an entry's
page-generation unit. -/
def renderEntry (post : PostEntry) : RenderedHead :=
  renderUnit (mkPathUnit post)

/-! ## Index Renderer (`src/pages/blog/index.astro`) -/

/-- `(b.data.published || 0).valueOf()`: an `undefined` date compares
as `0`. -/
def pubKey (post : PostEntry) : Int :=
  post.data.published.getD 0

/-- The sort order imposed by the comparator
`(a, b) => (b.data.published || 0).valueOf() - (a.data.published || 0).valueOf()`:
`a` precedes `b` exactly when the comparator is `≤ 0`, i.e. descending
`published`. -/
def postOrder (a b : PostEntry) : Prop :=
  pubKey b ≤ pubKey a

instance : DecidableRel postOrder := fun a b =>
  inferInstanceAs (Decidable (pubKey b ≤ pubKey a))

instance : IsTotal PostEntry postOrder :=
  ⟨fun a b => le_total (pubKey b) (pubKey a)⟩

instance : IsTrans PostEntry postOrder :=
  ⟨fun _ _ _ h h' => le_trans h' h⟩

/-- `allPosts` of `index.astro`: filter to published entries and sort by
the descending-`published` comparator.  JavaScript `Array.prototype.sort`
is a stable sort consistent with the comparator; insertion sort realises
exactly that contract. -/
def allPosts (blog : List PostEntry) : List PostEntry :=
  (blog.filter isPublished).insertionSort postOrder

/-- One `<li>` of the listing: a link
`/blog/${post.id.split("/").pop() || ""}` labelled with the title. -/
structure IndexItem where
  href : String
  label : String
deriving Repr, DecidableEq

/-- The link rendered for one listed post. -/
def mkIndexItem (post : PostEntry) : IndexItem :=
  { href := "/blog/" ++ lastSegment post.id
    label := post.data.title }

/-- The listing of `index.astro`: one link per element of `allPosts`, in
order. -/
def indexItems (blog : List PostEntry) : List IndexItem :=
  (allPosts blog).map mkIndexItem

/-! ## Concrete entries used as test inputs -/

/-- A published entry whose source file lives in a subdirectory of the
content root (cf. the repository's
`Concurrency Post with Row Level Locking/Handling Concurrency….md`). -/
def postX : PostEntry :=
  { id := "guides/post"
    data := { title := "T", description := "D", author := "A", tags := ["x"],
              published := some 5, ogImage := none }
    body := "hello" }

/-- A draft entry: no `published` value. -/
def draftEntry : PostEntry :=
  { id := "draft"
    data := { title := "Draft", description := "D", author := "A", tags := [],
              published := none, ogImage := none }
    body := "wip" }

/-- A published entry with a custom `ogImage`. -/
def postCustom : PostEntry :=
  { id := "custom"
    data := { title := "C", description := "D", author := "A", tags := [],
              published := some 7, ogImage := some "custom.png" }
    body := "body" }

/-- Published `2024-01-01` (UTC timestamp in milliseconds). -/
def post20240101 : PostEntry :=
  { id := "p1"
    data := { title := "T1", description := "D", author := "A", tags := [],
              published := some 1704067200000, ogImage := none }
    body := "" }

/-- Published `2025-06-26` (UTC timestamp in milliseconds). -/
def post20250626 : PostEntry :=
  { id := "p2"
    data := { title := "T2", description := "D", author := "A", tags := [],
              published := some 1750896000000, ogImage := none }
    body := "" }

/-- Published `2025-02-04` (UTC timestamp in milliseconds). -/
def post20250204 : PostEntry :=
  { id := "p3"
    data := { title := "T3", description := "D", author := "A", tags := [],
              published := some 1738627200000, ogImage := none }
    body := "" }

/-! ## Helper lemmas -/

theorem blogSchema_isOk_iff (r : RawRecord) :
    (blogSchema r).isOk = true ↔
      ((asString r.title).isSome = true ∧ (asOptionalDate r.published).isSome = true ∧
       (asString r.description).isSome = true ∧ (asString r.author).isSome = true ∧
       (asStringArray r.tags).isSome = true ∧ (asOptionalString r.ogImage).isSome = true) := by
  unfold blogSchema
  cases asString r.title <;> cases asOptionalDate r.published <;>
    cases asString r.description <;> cases asString r.author <;>
      cases asStringArray r.tags <;> cases asOptionalString r.ogImage <;>
        simp [Except.isOk, Except.toBool]

theorem exists_ok_of_isOk {ε α : Type} {e : Except ε α} (h : e.isOk = true) :
    ∃ a, e = .ok a := by
  cases e with
  | ok a => exact ⟨a, rfl⟩
  | error v => simp [Except.isOk, Except.toBool] at h

theorem exists_error_of_isOk_false {ε α : Type} {e : Except ε α} (h : e.isOk = false) :
    ∃ v, e = .error v := by
  cases e with
  | ok a => simp [Except.isOk, Except.toBool] at h
  | error v => exact ⟨v, rfl⟩

theorem countP_getStaticPaths (blog : List PostEntry) (i : String) :
    (getStaticPaths blog).countP (fun u => u.props.id == i)
      = blog.countP (fun p => p.id == i && isPublished p) := by
  unfold getStaticPaths
  rw [List.countP_map, List.countP_filter]
  rfl

theorem countP_id_published (blog : List PostEntry) (post : PostEntry)
    (hnd : (blog.map PostEntry.id).Nodup) (hmem : post ∈ blog) :
    blog.countP (fun p => p.id == post.id && isPublished p)
      = if isPublished post then 1 else 0 := by
  induction blog with
  | nil => cases hmem
  | cons a l ih =>
    rw [List.map_cons, List.nodup_cons] at hnd
    obtain ⟨ha, hl⟩ := hnd
    rcases List.mem_cons.mp hmem with heq | hmem'
    · subst heq
      rw [List.countP_cons]
      have h0 : l.countP (fun p => p.id == post.id && isPublished p) = 0 := by
        refine List.countP_eq_zero.mpr fun p hp hcontra => ?_
        have hid : p.id = post.id := by
          have := (Bool.and_eq_true _ _).mp hcontra
          exact eq_of_beq this.1
        exact ha (hid ▸ List.mem_map_of_mem PostEntry.id hp)
      simp [h0]
    · have hne : (a.id == post.id) = false := by
        apply beq_eq_false_iff_ne.mpr
        intro hid
        exact ha (hid ▸ List.mem_map_of_mem PostEntry.id hmem')
      rw [List.countP_cons, ih hl hmem']
      simp [hne]

theorem splitSlashAux_no_slash :
    ∀ (l acc : List Char), '/' ∉ acc →
      ∀ seg ∈ splitSlashAux l acc, '/' ∉ seg := by
  intro l
  induction l with
  | nil =>
    intro acc hacc seg hseg
    simp only [splitSlashAux, List.mem_singleton] at hseg
    subst hseg
    simpa using hacc
  | cons c cs ih =>
    intro acc hacc seg hseg
    by_cases hc : c = '/'
    · simp only [splitSlashAux, hc, if_pos rfl] at hseg
      rcases List.mem_cons.mp hseg with h | h
      · subst h; simpa using hacc
      · exact ih [] (by simp) seg h
    · simp only [splitSlashAux, if_neg hc] at hseg
      refine ih (c :: acc) ?_ seg hseg
      intro h
      rcases List.mem_cons.mp h with h | h
      · exact hc h.symm
      · exact hacc h

theorem getLastD_map_no_slash :
    ∀ (xs : List (List Char)) (d : String), (∀ x ∈ xs, '/' ∉ x) → '/' ∉ d.data →
      '/' ∉ ((xs.map fun l => (⟨l⟩ : String)).getLastD d).data := by
  intro xs
  induction xs with
  | nil => intro d _ hd; simpa using hd
  | cons x xs ih =>
    intro d hxs _
    simp only [List.map_cons, List.getLastD_cons]
    exact ih ⟨x⟩ (fun y hy => hxs y (List.mem_cons_of_mem x hy))
      (hxs x (List.mem_cons_self x xs))

theorem no_slash_lastSegment (s : String) : '/' ∉ (lastSegment s).data := by
  unfold lastSegment splitSlash
  exact getLastD_map_no_slash (splitSlashAux s.data []) ""
    (splitSlashAux_no_slash s.data [] (by simp)) (by simp)

theorem lastSegment_ne_self {s : String} (h : '/' ∈ s.data) : lastSegment s ≠ s := by
  intro he
  exact no_slash_lastSegment s (by rw [he]; exact h)

theorem string_append_ne {a s t : String} (h : s ≠ t) : a ++ s ≠ a ++ t := by
  intro he
  apply h
  have hd : a.data ++ s.data = a.data ++ t.data := by
    simpa [String.data_append] using congrArg String.data he
  have : s.data = t.data := List.append_cancel_left hd
  cases s; cases t; exact congrArg String.mk this

/-! ## Claims -/

/-- Claim C1: the spec says every page-generation unit carries the routed
URL identifier, all metadata fields and a rendered-content handle.
Evaluating `getStaticPaths` at a published entry shows the unit carries
the routed identifier, `title`, `published`, `ogImage` and the content
handle, but its `description`, `author` and `tags` props are left
undefined: the props object literal omits them although the page's own
`Props` interface declares them required. -/
theorem getStaticPaths_unit_lacks_description_author_tags :
    getStaticPaths [postX] = [mkPathUnit postX]
    ∧ (mkPathUnit postX).params.id = "post"
    ∧ (mkPathUnit postX).props.title = "T"
    ∧ (mkPathUnit postX).props.published = some 5
    ∧ (mkPathUnit postX).props.Content = render postX
    ∧ (mkPathUnit postX).props.description = none
    ∧ (mkPathUnit postX).props.author = none
    ∧ (mkPathUnit postX).props.tags = none
    ∧ postX.data.description = "D"
    ∧ postX.data.author = "A"
    ∧ postX.data.tags = ["x"] := by
  exact ⟨rfl, rfl, rfl, rfl, rfl, rfl, rfl, rfl, rfl, rfl, rfl⟩

/-- Claim C2, counterexample: for the published entry `postX` (author
`"A"`, description `"D"`), the rendered document's author meta tag is
the hardcoded `"Nick Cosmo"`, not the entry's author, and the
`og:description` tag carries no value at all — the front matter does not
round-trip. -/
theorem renderEntry_author_description_mismatch :
    (renderEntry postX).metaAuthor ≠ postX.data.author
    ∧ (renderEntry postX).ogDescription ≠ some postX.data.description := by
  exact ⟨by decide, by decide⟩

/-- Claim C2, amended: for every page-generation unit, the Page Renderer
emits the constant author meta tag `"Nick Cosmo"` regardless of the
unit's author, and injects the unit's `description` prop (always absent
on blog units) into the `og:description` tag. -/
theorem renderUnit_constant_author :
    ∀ u : PathUnit, (renderUnit u).metaAuthor = "Nick Cosmo"
      ∧ (renderUnit u).ogDescription = u.props.description :=
  fun _ => ⟨rfl, rfl⟩

/-- Claim C3: in a collection with unique ids, an entry with no
`published` value yields zero page-generation units and is absent from
the index listing's post set, while an entry with a `published` value
yields exactly one unit. -/
theorem published_controls_unit_count (blog : List PostEntry) (post : PostEntry)
    (hnd : (blog.map PostEntry.id).Nodup) (hmem : post ∈ blog) :
    (post.data.published = none →
      (getStaticPaths blog).countP (fun u => u.props.id == post.id) = 0
      ∧ post ∉ allPosts blog)
    ∧ (post.data.published.isSome = true →
      (getStaticPaths blog).countP (fun u => u.props.id == post.id) = 1) := by
  constructor
  · intro hnone
    constructor
    · rw [countP_getStaticPaths, countP_id_published blog post hnd hmem]
      simp [isPublished, hnone]
    · intro hin
      have hmemf : post ∈ blog.filter isPublished := by
        simpa [allPosts] using hin
      have : isPublished post = true := (List.mem_filter.mp hmemf).2
      simp [isPublished, hnone] at this
  · intro hsome
    rw [countP_getStaticPaths, countP_id_published blog post hnd hmem]
    simp [isPublished, hsome]

/-- Witness for claim C3 at the concrete collection `[postX, draftEntry]`. -/
theorem published_controls_unit_count_witness :
    (([postX, draftEntry].map PostEntry.id).Nodup ∧ postX ∈ [postX, draftEntry])
    ∧ ((postX.data.published = none →
        (getStaticPaths [postX, draftEntry]).countP (fun u => u.props.id == postX.id) = 0
        ∧ postX ∉ allPosts [postX, draftEntry])
      ∧ (postX.data.published.isSome = true →
        (getStaticPaths [postX, draftEntry]).countP (fun u => u.props.id == postX.id) = 1)) :=
  ⟨⟨by decide, by decide⟩,
   published_controls_unit_count [postX, draftEntry] postX (by decide) (by decide)⟩

/-- Claim C4, counterexample: the schema accepts a record whose `title`
is the empty string — `z.string()` imposes no non-emptiness check. -/
theorem blogSchema_accepts_empty_title :
    blogSchema { title := some (.str ""), description := some (.str "D"),
                 author := some (.str "A"), tags := some (.arr [.str "x"]),
                 published := none, ogImage := none }
      = .ok { title := "", description := "D", author := "A", tags := ["x"],
              published := none, ogImage := none } := rfl

/-- A raw record whose `title` holds a date instead of a string. -/
def nonStringTitleRecord : RawRecord :=
  { title := some (.date 5), description := some (.str "D"),
    author := some (.str "A"), tags := some (.arr []),
    published := none, ogImage := none }

/-- An otherwise-valid raw record whose `description` is the empty
string. -/
def emptyDescriptionRecord : RawRecord :=
  { title := some (.str "T"), description := some (.str ""),
    author := some (.str "A"), tags := some (.arr [.str "x"]),
    published := none, ogImage := none }

/-- Claim C4, amended: the schema requires `title`, `description` and
`author` to be present string-typed text — a record in which any of the
three is missing or non-string (`asString` yields `none`) is rejected —
but an otherwise-valid record in which any of the three is the empty
string is accepted. -/
theorem blogSchema_requires_text_not_nonempty (r s : RawRecord)
    (hr : asString r.title = none ∨ asString r.description = none
          ∨ asString r.author = none)
    (h1 : (asString s.title).isSome = true)
    (h2 : (asString s.description).isSome = true)
    (h3 : (asString s.author).isSome = true)
    (h4 : (asStringArray s.tags).isSome = true)
    (h5 : (asOptionalDate s.published).isSome = true)
    (h6 : (asOptionalString s.ogImage).isSome = true)
    (_hempty : asString s.title = some "" ∨ asString s.description = some ""
               ∨ asString s.author = some "") :
    (∃ v, blogSchema r = .error v) ∧ ∃ m, blogSchema s = .ok m := by
  constructor
  · cases h : (blogSchema r).isOk with
    | false => exact exists_error_of_isOk_false h
    | true =>
      obtain ⟨g1, _, g3, g4, _, _⟩ := (blogSchema_isOk_iff r).mp h
      rcases hr with he | he | he
      · rw [he] at g1; simp at g1
      · rw [he] at g3; simp at g3
      · rw [he] at g4; simp at g4
  · exact exists_ok_of_isOk ((blogSchema_isOk_iff s).mpr ⟨h1, h5, h2, h3, h4, h6⟩)

/-- Witness for claim C4: a record with a non-string (date) `title` is
rejected, and an otherwise-valid record whose `description` is the empty
string is accepted. -/
theorem blogSchema_requires_text_not_nonempty_witness :
    (asString nonStringTitleRecord.title = none
     ∨ asString nonStringTitleRecord.description = none
     ∨ asString nonStringTitleRecord.author = none)
    ∧ (asString emptyDescriptionRecord.title = some ""
       ∨ asString emptyDescriptionRecord.description = some ""
       ∨ asString emptyDescriptionRecord.author = some "")
    ∧ ((∃ v, blogSchema nonStringTitleRecord = .error v)
       ∧ ∃ m, blogSchema emptyDescriptionRecord = .ok m) :=
  ⟨Or.inl rfl, Or.inr (Or.inl rfl),
   blogSchema_requires_text_not_nonempty nonStringTitleRecord emptyDescriptionRecord
     (Or.inl rfl) rfl rfl rfl rfl rfl rfl (Or.inr (Or.inl rfl))⟩

/-- A raw record whose four required fields are present and correctly
typed but whose `published` field holds a string instead of a date. -/
def badPublishedRecord : RawRecord :=
  { title := some (.str "T"), description := some (.str "D"),
    author := some (.str "A"), tags := some (.arr [.str "x"]),
    published := some (.str "soon"), ogImage := none }

/-- Claim C5, counterexample: `badPublishedRecord` has the four required
fields present and correctly typed, yet the validator rejects it,
because its optional `published` field is not a date. -/
theorem blogSchema_rejects_welltyped_required_fields :
    (asString badPublishedRecord.title = some "T"
     ∧ asString badPublishedRecord.description = some "D"
     ∧ asString badPublishedRecord.author = some "A"
     ∧ asStringArray badPublishedRecord.tags = some ["x"])
    ∧ blogSchema badPublishedRecord = .error { fields := ["published"] } :=
  ⟨⟨rfl, rfl, rfl, rfl⟩, rfl⟩

/-- Claim C5, amended: a record whose four required fields are present
and correctly typed and whose optional fields are absent or correctly
typed is accepted; a record missing any required field fails with a
`SchemaViolation`. -/
theorem blogSchema_accepts_valid_rejects_missing (r s : RawRecord)
    (h1 : (asString r.title).isSome = true)
    (h2 : (asString r.description).isSome = true)
    (h3 : (asString r.author).isSome = true)
    (h4 : (asStringArray r.tags).isSome = true)
    (h5 : (asOptionalDate r.published).isSome = true)
    (h6 : (asOptionalString r.ogImage).isSome = true)
    (hs : s.title = none ∨ s.description = none ∨ s.author = none ∨ s.tags = none) :
    (∃ m, blogSchema r = .ok m) ∧ ∃ v, blogSchema s = .error v := by
  constructor
  · exact exists_ok_of_isOk ((blogSchema_isOk_iff r).mpr ⟨h1, h5, h2, h3, h4, h6⟩)
  · cases h : (blogSchema s).isOk with
    | false => exact exists_error_of_isOk_false h
    | true =>
      obtain ⟨g1, _, g3, g4, g5, _⟩ := (blogSchema_isOk_iff s).mp h
      rcases hs with he | he | he | he
      · rw [he] at g1; simp [asString] at g1
      · rw [he] at g3; simp [asString] at g3
      · rw [he] at g4; simp [asString] at g4
      · rw [he] at g5; simp [asStringArray] at g5

/-- Witness for claim C5: a fully valid record is accepted and a record
with no `tags` field is rejected. -/
theorem blogSchema_accepts_valid_rejects_missing_witness :
    ((∃ m, blogSchema { title := some (.str "T"), description := some (.str "D"),
                        author := some (.str "A"), tags := some (.arr [.str "x"]),
                        published := some (.date 5), ogImage := some (.str "o.png") }
            = .ok m)
     ∧ ∃ v, blogSchema { title := some (.str "T"), description := some (.str "D"),
                         author := some (.str "A"), tags := none,
                         published := none, ogImage := none } = .error v) :=
  blogSchema_accepts_valid_rejects_missing _ _ rfl rfl rfl rfl rfl rfl
    (Or.inr (Or.inr (Or.inr rfl)))

/-- Claim C6: an entry with `ogImage` set to `"custom.png"` renders a
social-preview tag containing `custom.png`; an entry with no `ogImage`
renders the default fallback path `og-image.png`. -/
theorem ogImage_roundtrip (e f : PostEntry)
    (he : e.data.ogImage = some "custom.png") (hf : f.data.ogImage = none) :
    (renderEntry e).ogImage = "https://www.nickcosmo.com/" ++ "custom.png"
    ∧ (renderEntry f).ogImage = "https://www.nickcosmo.com/" ++ "og-image.png" := by
  constructor
  · show "https://www.nickcosmo.com/" ++ jsOrString e.data.ogImage "og-image.png" = _
    rw [he]; rfl
  · show "https://www.nickcosmo.com/" ++ jsOrString f.data.ogImage "og-image.png" = _
    rw [hf]; rfl

/-- Witness for claim C6 at the concrete entries `postCustom` and `postX`. -/
theorem ogImage_roundtrip_witness :
    (postCustom.data.ogImage = some "custom.png" ∧ postX.data.ogImage = none)
    ∧ ((renderEntry postCustom).ogImage = "https://www.nickcosmo.com/" ++ "custom.png"
       ∧ (renderEntry postX).ogImage = "https://www.nickcosmo.com/" ++ "og-image.png") :=
  ⟨⟨rfl, rfl⟩, ogImage_roundtrip postCustom postX rfl rfl⟩

/-- Claim C7: the Index Renderer lists one link per qualifying entry, in
`published`-descending order; on entries dated 2024-01-01, 2025-06-26
and 2025-02-04 it lists 2025-06-26, 2025-02-04, 2024-01-01. -/
theorem index_listing_sorted_desc (blog : List PostEntry) :
    indexItems blog = (allPosts blog).map mkIndexItem
    ∧ (allPosts blog).Perm (blog.filter isPublished)
    ∧ List.Sorted postOrder (allPosts blog)
    ∧ indexItems [post20240101, post20250626, post20250204]
        = [mkIndexItem post20250626, mkIndexItem post20250204, mkIndexItem post20240101] := by
  refine ⟨rfl, List.perm_insertionSort postOrder _, ?_, by decide⟩
  show List.Sorted postOrder ((blog.filter isPublished).insertionSort postOrder)
  exact List.sorted_insertionSort postOrder _

/-- Claim C8: the routed-identifier derivation (final path segment) is
not injective — two distinct nested paths with the same filename collide. -/
theorem lastSegment_not_injective :
    ∃ p q : String, p ≠ q ∧ lastSegment p = lastSegment q :=
  ⟨"guides/post", "notes/post", by decide, by decide⟩

/-- Claim C9: a collection with zero qualifying (published) entries
yields zero page-generation units and an index listing with zero items —
a valid empty result, not an error. -/
theorem zero_qualifying_entries_ok (blog : List PostEntry)
    (h : ∀ p ∈ blog, p.data.published = none) :
    getStaticPaths blog = [] ∧ indexItems blog = [] := by
  have hf : blog.filter isPublished = [] :=
    List.filter_eq_nil_iff.mpr fun p hp => by simp [isPublished, h p hp]
  constructor
  · simp [getStaticPaths, hf]
  · simp [indexItems, allPosts, hf, List.insertionSort]

/-- Witness for claim C9 at the concrete collection `[draftEntry]`. -/
theorem zero_qualifying_entries_ok_witness :
    (∀ p ∈ [draftEntry], p.data.published = none)
    ∧ (getStaticPaths [draftEntry] = [] ∧ indexItems [draftEntry] = []) :=
  ⟨by decide, zero_qualifying_entries_ok [draftEntry] (by decide)⟩

/-- Claim C10: for a published entry in a subdirectory (its id contains
a `/`), the rendered `og:url` is built from the full nested id while the
page is routed under only the final segment, so the `og:url` differs
from the URL the page is served at. -/
theorem nested_id_breaks_og_url (e : PostEntry)
    (_hpub : e.data.published.isSome = true) (hn : '/' ∈ e.id.data) :
    (mkPathUnit e).params.id = lastSegment e.id
    ∧ (renderEntry e).ogUrl = "https://www.nickcosmo.com/blog/" ++ e.id
    ∧ (renderEntry e).ogUrl ≠ "https://www.nickcosmo.com/blog/" ++ (mkPathUnit e).params.id := by
  refine ⟨rfl, rfl, ?_⟩
  show "https://www.nickcosmo.com/blog/" ++ e.id
      ≠ "https://www.nickcosmo.com/blog/" ++ lastSegment e.id
  exact string_append_ne fun hc => lastSegment_ne_self hn hc.symm

/-- Witness for claim C10 at the concrete nested entry `postX`. -/
theorem nested_id_breaks_og_url_witness :
    (postX.data.published.isSome = true ∧ '/' ∈ postX.id.data)
    ∧ ((mkPathUnit postX).params.id = lastSegment postX.id
       ∧ (renderEntry postX).ogUrl = "https://www.nickcosmo.com/blog/" ++ postX.id
       ∧ (renderEntry postX).ogUrl
           ≠ "https://www.nickcosmo.com/blog/" ++ (mkPathUnit postX).params.id) :=
  ⟨⟨rfl, by decide⟩, nested_id_breaks_og_url postX rfl (by decide)⟩

end PersonalSite
